import Mathlib

/-!
Desired-state converter of the Flink session-cluster operator

A shallow embedding of `controllers/flinksessioncluster_converter.go`: the three
builders `getDesiredJobManagerDeployment`, `getDesiredJobManagerService`,
`getDesiredTaskManagerDeployment` and the helper `toOwnerReference`.

Conventions of the embedding:

* a Go pointer field `*T` is an `Option T` (`none` is the nil pointer); which
  allocation a pointer refers to is not represented;
* dereferencing a nil pointer panics; a builder therefore returns an `Option`,
  `none` standing for the panic, and the dereferences are sequenced in the
  order in which the Go function evaluates them;
* the argument pointer `*FlinkSessionCluster` itself is taken to be non-nil;
* `int32` values are only ever copied, never computed with, and are embedded
  as `Int`;
* a Go `map[string]string` is an association list without duplicate keys,
  built in the order of the map literal.
-/

set_option linter.dupNamespace false

namespace FlinkOperator

/-! ## Go `map[string]string` -/

/-- A Go `map[string]string`: key/value entries, at most one per key. The zero
value (the nil map) has no entries. -/
structure StringMap where
  entries : List (String × String) := []
  deriving DecidableEq, Repr

namespace StringMap

/-- The value stored under key `k`, if any (`v, ok := m[k]`). -/
def get? (m : StringMap) (k : String) : Option String :=
  m.entries.lookup k

/-- Assignment `m[k] = v`: overwrites the entry of an existing key, adds an
entry otherwise. -/
def set (m : StringMap) (k v : String) : StringMap :=
  if (m.entries.lookup k).isSome then
    ⟨m.entries.map fun kv => if kv.1 == k then (k, v) else kv⟩
  else
    ⟨m.entries ++ [(k, v)]⟩

/-- Number of entries, `len(m)`. -/
def len (m : StringMap) : Nat :=
  m.entries.length

/-- The keys of the map. -/
def keys (m : StringMap) : List String :=
  m.entries.map Prod.fst

/-- A map literal `map[string]string{k1: v1, ..., kn: vn}`. -/
def literal (kvs : List (String × String)) : StringMap :=
  kvs.foldl (fun m kv => m.set kv.1 kv.2) {}

end StringMap

/-! ## Kubernetes API types (the fields the converter touches, and the
metadata and status fields it leaves at their zero value) -/

/-- Go `metav1.TypeMeta`. -/
structure TypeMeta where
  Kind : String := ""
  APIVersion : String := ""
  deriving DecidableEq, Repr

/-- Go `metav1.OwnerReference`; `Controller` and `BlockOwnerDeletion` are
`*bool`. -/
structure OwnerReference where
  APIVersion : String := ""
  Kind : String := ""
  Name : String := ""
  UID : String := ""
  Controller : Option Bool := none
  BlockOwnerDeletion : Option Bool := none
  deriving DecidableEq, Repr

/-- Go `metav1.ObjectMeta`. -/
structure ObjectMeta where
  Name : String := ""
  GenerateName : String := ""
  Namespace : String := ""
  UID : String := ""
  ResourceVersion : String := ""
  Generation : Int := 0
  Labels : StringMap := {}
  Annotations : StringMap := {}
  OwnerReferences : List OwnerReference := []
  Finalizers : List String := []
  deriving DecidableEq, Repr

/-- Discriminator of Go `intstr.IntOrString`. -/
inductive IntOrStringType where
  | int
  | string
  deriving DecidableEq, Repr

/-- Go `intstr.IntOrString`; `Type_` is the Go field `Type`. -/
structure IntOrString where
  Type_ : IntOrStringType := IntOrStringType.int
  IntVal : Int := 0
  StrVal : String := ""
  deriving DecidableEq, Repr

/-- Go `intstr.FromString`. -/
def IntOrString.FromString (val : String) : IntOrString :=
  { Type_ := IntOrStringType.string, StrVal := val }

/-- Go `corev1.ContainerPort`. -/
structure ContainerPort where
  Name : String := ""
  HostPort : Int := 0
  ContainerPort : Int := 0
  Protocol : String := ""
  HostIP : String := ""
  deriving DecidableEq, Repr

/-- Go `corev1.EnvVar`. -/
structure EnvVar where
  Name : String := ""
  Value : String := ""
  deriving DecidableEq, Repr

/-- Go `corev1.Container`. -/
structure Container where
  Name : String := ""
  Image : String := ""
  Command : List String := []
  Args : List String := []
  WorkingDir : String := ""
  Ports : List ContainerPort := []
  Env : List EnvVar := []
  deriving DecidableEq, Repr

/-- Go `corev1.PodSpec`. -/
structure PodSpec where
  Containers : List Container := []
  deriving DecidableEq, Repr

/-- Go `corev1.PodTemplateSpec`. -/
structure PodTemplateSpec where
  ObjectMeta : ObjectMeta := {}
  Spec : PodSpec := {}
  deriving DecidableEq, Repr

/-- Go `metav1.LabelSelector`. -/
structure LabelSelector where
  MatchLabels : StringMap := {}
  deriving DecidableEq, Repr

/-- Go `appsv1.DeploymentSpec`; `Replicas` is `*int32`, `Selector` is
`*metav1.LabelSelector`. -/
structure DeploymentSpec where
  Replicas : Option Int := none
  Selector : Option LabelSelector := none
  Template : PodTemplateSpec := {}
  deriving DecidableEq, Repr

/-- Go `appsv1.DeploymentStatus`. -/
structure DeploymentStatus where
  ObservedGeneration : Int := 0
  Replicas : Int := 0
  UpdatedReplicas : Int := 0
  ReadyReplicas : Int := 0
  AvailableReplicas : Int := 0
  UnavailableReplicas : Int := 0
  deriving DecidableEq, Repr

/-- Go `appsv1.Deployment`. -/
structure Deployment where
  TypeMeta : TypeMeta := {}
  ObjectMeta : ObjectMeta := {}
  Spec : DeploymentSpec := {}
  Status : DeploymentStatus := {}
  deriving DecidableEq, Repr

/-- Go `corev1.ServicePort`. -/
structure ServicePort where
  Name : String := ""
  Protocol : String := ""
  Port : Int := 0
  TargetPort : IntOrString := {}
  NodePort : Int := 0
  deriving DecidableEq, Repr

/-- Go `corev1.ServiceSpec`; `Type_` is the Go field `Type`. -/
structure ServiceSpec where
  Ports : List ServicePort := []
  Selector : StringMap := {}
  ClusterIP : String := ""
  Type_ : String := ""
  deriving DecidableEq, Repr

/-- Go `corev1.ServiceStatus`. -/
structure ServiceStatus where
  LoadBalancerIngress : List String := []
  deriving DecidableEq, Repr

/-- Go `corev1.Service`. -/
structure Service where
  TypeMeta : TypeMeta := {}
  ObjectMeta : ObjectMeta := {}
  Spec : ServiceSpec := {}
  Status : ServiceStatus := {}
  deriving DecidableEq, Repr

/-! ## The custom resource `flinkoperatorv1alpha1.FlinkSessionCluster` -/

/-- Modelled from the spec: the declaration of `ImageSpec` (package
`api/v1alpha1`) is not part of the converter file. The cluster "carries a
container image reference"; the converter dereferences `imageSpec.URI` into a
`string`, so `URI` is a `*string`. -/
structure ImageSpec where
  URI : Option String := none
  deriving DecidableEq, Repr

/-- Modelled from the spec: the declaration of `JobManagerPorts` is not part of
the converter file. The coordinator "exposes control-plane, data-transfer,
query, and UI ports"; the converter dereferences each into an `int32`. -/
structure JobManagerPorts where
  RPC : Option Int := none
  Blob : Option Int := none
  Query : Option Int := none
  UI : Option Int := none
  deriving DecidableEq, Repr

/-- Modelled from the spec: the declaration of `JobManagerSpec` is not part of
the converter file: "a desired replica count and a set of named network
ports". `Replicas` is assigned to the `*int32` field of `DeploymentSpec`. -/
structure JobManagerSpec where
  Replicas : Option Int := none
  Ports : JobManagerPorts := {}
  deriving DecidableEq, Repr

/-- Modelled from the spec: the declaration of `TaskManagerPorts` is not part
of the converter file. The worker "exposes data, control-plane, and query
ports"; the converter dereferences each into an `int32`. -/
structure TaskManagerPorts where
  Data : Option Int := none
  RPC : Option Int := none
  Query : Option Int := none
  deriving DecidableEq, Repr

/-- Modelled from the spec: the declaration of `TaskManagerSpec` is not part of
the converter file: "a desired replica count and a set of named network
ports". -/
structure TaskManagerSpec where
  Replicas : Option Int := none
  Ports : TaskManagerPorts := {}
  deriving DecidableEq, Repr

/-- Modelled from the spec: the declaration of `FlinkSessionClusterSpec` is not
part of the converter file: the cluster "carries a container image reference"
and "two role sub-specs". -/
structure FlinkSessionClusterSpec where
  ImageSpec : ImageSpec := {}
  JobManagerSpec : JobManagerSpec := {}
  TaskManagerSpec : TaskManagerSpec := {}
  deriving DecidableEq, Repr

/-- Modelled from the spec: the declaration of `FlinkSessionClusterStatus` is
not part of the converter file, which never reads it. -/
structure FlinkSessionClusterStatus where
  State : String := ""
  deriving DecidableEq, Repr

/-- Modelled from the spec: the declaration of `FlinkSessionCluster` is not part
of the converter file. It embeds `metav1.TypeMeta` and `metav1.ObjectMeta`
(the converter reads the promoted fields `APIVersion`, `Kind`, `Name`, `UID`)
and has a `Spec`. -/
structure FlinkSessionCluster where
  TypeMeta : TypeMeta := {}
  ObjectMeta : ObjectMeta := {}
  Spec : FlinkSessionClusterSpec := {}
  Status : FlinkSessionClusterStatus := {}
  deriving DecidableEq, Repr

namespace FlinkSessionCluster

/-- Promoted field `flinkSessionCluster.APIVersion` of the embedded
`TypeMeta`. -/
def APIVersion (c : FlinkSessionCluster) : String := c.TypeMeta.APIVersion

/-- Promoted field `flinkSessionCluster.Kind` of the embedded `TypeMeta`. -/
def Kind (c : FlinkSessionCluster) : String := c.TypeMeta.Kind

/-- Promoted field `flinkSessionCluster.Name` of the embedded `ObjectMeta`. -/
def Name (c : FlinkSessionCluster) : String := c.ObjectMeta.Name

/-- Promoted field `flinkSessionCluster.UID` of the embedded `ObjectMeta`. -/
def UID (c : FlinkSessionCluster) : String := c.ObjectMeta.UID

/-- Every pointer field that some builder dereferences is set: the image URI,
the four JobManager ports and the three TaskManager ports. -/
def dereferencedFieldsSet (c : FlinkSessionCluster) : Bool :=
  c.Spec.ImageSpec.URI.isSome &&
  c.Spec.JobManagerSpec.Ports.RPC.isSome &&
  c.Spec.JobManagerSpec.Ports.Blob.isSome &&
  c.Spec.JobManagerSpec.Ports.Query.isSome &&
  c.Spec.JobManagerSpec.Ports.UI.isSome &&
  c.Spec.TaskManagerSpec.Ports.Data.isSome &&
  c.Spec.TaskManagerSpec.Ports.RPC.isSome &&
  c.Spec.TaskManagerSpec.Ports.Query.isSome

end FlinkSessionCluster

/-! ## The converter -/

/-- Converts the FlinkSessionCluster as owner reference for its child
resources. -/
def toOwnerReference (flinkSessionCluster : FlinkSessionCluster) : OwnerReference :=
  { APIVersion := flinkSessionCluster.APIVersion
    Kind := flinkSessionCluster.Kind
    Name := flinkSessionCluster.Name
    UID := flinkSessionCluster.UID
    Controller := some true
    BlockOwnerDeletion := some false }

/-- Gets the desired JobManager deployment spec from the FlinkSessionCluster
spec. -/
def getDesiredJobManagerDeployment (flinkSessionCluster : FlinkSessionCluster) :
    Option Deployment := do
  let clusterNamespace := flinkSessionCluster.ObjectMeta.Namespace
  let clusterName := flinkSessionCluster.ObjectMeta.Name
  let imageSpec := flinkSessionCluster.Spec.ImageSpec
  let jobManagerSpec := flinkSessionCluster.Spec.JobManagerSpec
  let rpcPort : ContainerPort := { Name := "rpc", ContainerPort := ← jobManagerSpec.Ports.RPC }
  let blobPort : ContainerPort := { Name := "blob", ContainerPort := ← jobManagerSpec.Ports.Blob }
  let queryPort : ContainerPort := { Name := "query", ContainerPort := ← jobManagerSpec.Ports.Query }
  let uiPort : ContainerPort := { Name := "ui", ContainerPort := ← jobManagerSpec.Ports.UI }
  let jobManagerDeploymentName := clusterName ++ "-jobmanager"
  let labels := StringMap.literal [
    ("cluster", clusterName),
    ("app", "flink"),
    ("component", "jobmanager")]
  let jobManagerDeployment : Deployment := {
    ObjectMeta := {
      Namespace := clusterNamespace
      Name := jobManagerDeploymentName
      OwnerReferences := [toOwnerReference flinkSessionCluster]
      Labels := labels }
    Spec := {
      Replicas := jobManagerSpec.Replicas
      Selector := some { MatchLabels := labels }
      Template := {
        ObjectMeta := { Labels := labels }
        Spec := {
          Containers := [
            { Name := "jobmanager"
              Image := ← imageSpec.URI
              Args := ["jobmanager"]
              Ports := [rpcPort, blobPort, queryPort, uiPort]
              Env := [{ Name := "JOB_MANAGER_RPC_ADDRESS", Value := jobManagerDeploymentName }] }] } } } }
  return jobManagerDeployment

/-- Gets the desired JobManager service spec from the FlinkSessionCluster
spec. -/
def getDesiredJobManagerService (flinkSessionCluster : FlinkSessionCluster) :
    Option Service := do
  let clusterNamespace := flinkSessionCluster.ObjectMeta.Namespace
  let clusterName := flinkSessionCluster.ObjectMeta.Name
  let jobManagerSpec := flinkSessionCluster.Spec.JobManagerSpec
  let rpcPort : ServicePort := {
    Name := "rpc"
    Port := ← jobManagerSpec.Ports.RPC
    TargetPort := IntOrString.FromString "rpc" }
  let blobPort : ServicePort := {
    Name := "blob"
    Port := ← jobManagerSpec.Ports.Blob
    TargetPort := IntOrString.FromString "blob" }
  let queryPort : ServicePort := {
    Name := "query"
    Port := ← jobManagerSpec.Ports.Query
    TargetPort := IntOrString.FromString "query" }
  let uiPort : ServicePort := {
    Name := "ui"
    Port := ← jobManagerSpec.Ports.UI
    TargetPort := IntOrString.FromString "ui" }
  let jobManagerServiceName := clusterName ++ "-jobmanager"
  let labels := StringMap.literal [
    ("cluster", clusterName),
    ("app", "flink"),
    ("component", "jobmanager")]
  let jobManagerService : Service := {
    ObjectMeta := {
      Namespace := clusterNamespace
      Name := jobManagerServiceName
      OwnerReferences := [toOwnerReference flinkSessionCluster]
      Labels := labels }
    Spec := {
      Selector := labels
      Ports := [rpcPort, blobPort, queryPort, uiPort] } }
  return jobManagerService

/-- Gets the desired TaskManager deployment spec from the FlinkSessionCluster
spec. -/
def getDesiredTaskManagerDeployment (flinkSessionCluster : FlinkSessionCluster) :
    Option Deployment := do
  let clusterNamespace := flinkSessionCluster.ObjectMeta.Namespace
  let clusterName := flinkSessionCluster.ObjectMeta.Name
  let imageSpec := flinkSessionCluster.Spec.ImageSpec
  let taskManagerSpec := flinkSessionCluster.Spec.TaskManagerSpec
  let dataPort : ContainerPort := { Name := "data", ContainerPort := ← taskManagerSpec.Ports.Data }
  let rpcPort : ContainerPort := { Name := "rpc", ContainerPort := ← taskManagerSpec.Ports.RPC }
  let queryPort : ContainerPort := { Name := "query", ContainerPort := ← taskManagerSpec.Ports.Query }
  let taskManagerDeploymentName := clusterName ++ "-taskmanager"
  let jobManagerDeploymentName := clusterName ++ "-jobmanager"
  let labels := StringMap.literal [
    ("cluster", clusterName),
    ("app", "flink"),
    ("component", "taskmanager")]
  let taskManagerDeployment : Deployment := {
    ObjectMeta := {
      Namespace := clusterNamespace
      Name := taskManagerDeploymentName
      OwnerReferences := [toOwnerReference flinkSessionCluster]
      Labels := labels }
    Spec := {
      Replicas := taskManagerSpec.Replicas
      Selector := some { MatchLabels := labels }
      Template := {
        ObjectMeta := { Labels := labels }
        Spec := {
          Containers := [
            { Name := "taskmanager"
              Image := ← imageSpec.URI
              Args := ["taskmanager"]
              Ports := [dataPort, rpcPort, queryPort]
              Env := [{ Name := "JOB_MANAGER_RPC_ADDRESS", Value := jobManagerDeploymentName }] }] } } } }
  return taskManagerDeployment

/-! ## Auxiliary notions used to state the properties -/

/-- Kubernetes equality-based selection: every key/value pair of the selector
is present in the label set. -/
def selectorMatches (selector labels : StringMap) : Bool :=
  selector.entries.all fun kv => labels.get? kv.1 == some kv.2

/-- The cluster of the example scenario of the specification: `wordcount` in the
`flink` namespace, image `flink:1.9`, coordinator ports 6123/6124/6125/8081. -/
def wordcount : FlinkSessionCluster :=
  { TypeMeta := { Kind := "FlinkSessionCluster", APIVersion := "flinkoperator.k8s.io/v1alpha1" }
    ObjectMeta := { Name := "wordcount", Namespace := "flink", UID := "uid-1", ResourceVersion := "42" }
    Spec := {
      ImageSpec := { URI := some "flink:1.9" }
      JobManagerSpec := {
        Replicas := some 1
        Ports := { RPC := some 6123, Blob := some 6124, Query := some 6125, UI := some 8081 } }
      TaskManagerSpec := {
        Replicas := some 2
        Ports := { Data := some 6121, RPC := some 6122, Query := some 6125 } } } }

/-- A second cluster in the same namespace, with its own name and ports. -/
def pagerank : FlinkSessionCluster :=
  { TypeMeta := { Kind := "FlinkSessionCluster", APIVersion := "flinkoperator.k8s.io/v1alpha1" }
    ObjectMeta := { Name := "pagerank", Namespace := "flink", UID := "uid-2" }
    Spec := {
      ImageSpec := { URI := some "flink:1.8" }
      JobManagerSpec := {
        Ports := { RPC := some 7123, Blob := some 7124, Query := some 7125, UI := some 9081 } }
      TaskManagerSpec := {
        Ports := { Data := some 7121, RPC := some 7122, Query := some 7126 } } } }

/-- A cluster whose name is the empty string. -/
def unnamed : FlinkSessionCluster :=
  { wordcount with ObjectMeta := { Name := "", Namespace := "flink", UID := "uid-3" } }

/-- Structural validity of a cluster: the image URI, the four JobManager ports,
the three TaskManager ports and both replica counts are set. -/
def FlinkSessionCluster.structurallyValid (c : FlinkSessionCluster) : Bool :=
  c.dereferencedFieldsSet &&
  c.Spec.JobManagerSpec.Replicas.isSome &&
  c.Spec.TaskManagerSpec.Replicas.isSome

/-- A cluster with no image URI, no replica counts and no TaskManager ports;
only the four JobManager ports are set. -/
def portsOnly : FlinkSessionCluster :=
  { TypeMeta := { Kind := "FlinkSessionCluster", APIVersion := "flinkoperator.k8s.io/v1alpha1" }
    ObjectMeta := { Name := "ports-only", Namespace := "flink", UID := "uid-4" }
    Spec := {
      JobManagerSpec := {
        Ports := { RPC := some 6123, Blob := some 6124, Query := some 6125, UI := some 8081 } } } }

/-- A cluster with a zero and a negative replica count. -/
def scaledDown : FlinkSessionCluster :=
  { wordcount with
    ObjectMeta := { Name := "scaled-down", Namespace := "flink", UID := "uid-5" }
    Spec := { wordcount.Spec with
      JobManagerSpec := { wordcount.Spec.JobManagerSpec with Replicas := some 0 }
      TaskManagerSpec := { wordcount.Spec.TaskManagerSpec with Replicas := some (-2) } } }

/-- The `wordcount` cluster with another TaskManager spec. -/
def wordcountMoreWorkers : FlinkSessionCluster :=
  { wordcount with
    Spec := { wordcount.Spec with
      TaskManagerSpec := {
        Replicas := some 16
        Ports := { Data := some 5121, RPC := some 5122, Query := some 5125 } } } }

/-- The `wordcount` cluster with another JobManager spec. -/
def wordcountOtherCoordinator : FlinkSessionCluster :=
  { wordcount with
    Spec := { wordcount.Spec with
      JobManagerSpec := {
        Replicas := some 3
        Ports := { RPC := some 4123, Blob := some 4124, Query := some 4125, UI := some 4081 } } } }

/-- The `wordcount` cluster with another image and another JobManager replica
count, and the same JobManager ports. -/
def wordcountUpgraded : FlinkSessionCluster :=
  { wordcount with
    Spec := { wordcount.Spec with
      ImageSpec := { URI := some "flink:1.10" }
      JobManagerSpec := { wordcount.Spec.JobManagerSpec with Replicas := some 5 } } }


/-! ## Auxiliary lemmas -/

/-- The label literal of a builder evaluates to its three entries, in the order
of the literal, for every cluster name and component. -/
theorem labels_literal (clusterName component : String) :
    StringMap.literal [("cluster", clusterName), ("app", "flink"), ("component", component)] =
      ⟨[("cluster", clusterName), ("app", "flink"), ("component", component)]⟩ := by
  rfl

/-- When every dereferenced pointer is set, each of them holds a value. -/
theorem dereferencedFieldsSet_values (c : FlinkSessionCluster)
    (h : c.dereferencedFieldsSet = true) :
    ∃ (img : String) (r b q u d r' q' : Int),
      c.Spec.ImageSpec.URI = some img ∧
      c.Spec.JobManagerSpec.Ports.RPC = some r ∧
      c.Spec.JobManagerSpec.Ports.Blob = some b ∧
      c.Spec.JobManagerSpec.Ports.Query = some q ∧
      c.Spec.JobManagerSpec.Ports.UI = some u ∧
      c.Spec.TaskManagerSpec.Ports.Data = some d ∧
      c.Spec.TaskManagerSpec.Ports.RPC = some r' ∧
      c.Spec.TaskManagerSpec.Ports.Query = some q' := by
  simp only [FlinkSessionCluster.dereferencedFieldsSet, Bool.and_eq_true,
    Option.isSome_iff_exists] at h
  obtain ⟨⟨⟨⟨⟨⟨⟨⟨img, hi⟩, ⟨r, hr⟩⟩, ⟨b, hb⟩⟩, ⟨q, hq⟩⟩, ⟨u, hu⟩⟩, ⟨d, hd⟩⟩, ⟨r', hr'⟩⟩, ⟨q', hq'⟩⟩ := h
  exact ⟨img, r, b, q, u, d, r', q', hi, hr, hb, hq, hu, hd, hr', hq'⟩

/-- The executable `selectorMatches` says that every key/value pair of the
selector is found in the label map. -/
theorem selectorMatches_iff (selector labels : StringMap) :
    selectorMatches selector labels = true ↔
      ∀ k v, (k, v) ∈ selector.entries → labels.get? k = some v := by
  simp [selectorMatches, List.all_eq_true]

/-- Closed form of the JobManager deployment when its five pointers are set. -/
theorem getDesiredJobManagerDeployment_eq (c : FlinkSessionCluster) (img : String)
    (r b q u : Int)
    (hi : c.Spec.ImageSpec.URI = some img)
    (hr : c.Spec.JobManagerSpec.Ports.RPC = some r)
    (hb : c.Spec.JobManagerSpec.Ports.Blob = some b)
    (hq : c.Spec.JobManagerSpec.Ports.Query = some q)
    (hu : c.Spec.JobManagerSpec.Ports.UI = some u) :
    getDesiredJobManagerDeployment c = some
      { ObjectMeta := {
          Namespace := c.ObjectMeta.Namespace
          Name := c.ObjectMeta.Name ++ "-jobmanager"
          OwnerReferences := [toOwnerReference c]
          Labels := ⟨[("cluster", c.ObjectMeta.Name), ("app", "flink"), ("component", "jobmanager")]⟩ }
        Spec := {
          Replicas := c.Spec.JobManagerSpec.Replicas
          Selector := some ⟨⟨[("cluster", c.ObjectMeta.Name), ("app", "flink"), ("component", "jobmanager")]⟩⟩
          Template := {
            ObjectMeta := {
              Labels := ⟨[("cluster", c.ObjectMeta.Name), ("app", "flink"), ("component", "jobmanager")]⟩ }
            Spec := {
              Containers := [
                { Name := "jobmanager"
                  Image := img
                  Args := ["jobmanager"]
                  Ports := [{ Name := "rpc", ContainerPort := r }, { Name := "blob", ContainerPort := b },
                    { Name := "query", ContainerPort := q }, { Name := "ui", ContainerPort := u }]
                  Env := [{ Name := "JOB_MANAGER_RPC_ADDRESS", Value := c.ObjectMeta.Name ++ "-jobmanager" }] }] } } } } := by
  simp only [getDesiredJobManagerDeployment, hi, hr, hb, hq, hu, labels_literal]
  rfl

/-- Closed form of the JobManager service when its four pointers are set. -/
theorem getDesiredJobManagerService_eq (c : FlinkSessionCluster) (r b q u : Int)
    (hr : c.Spec.JobManagerSpec.Ports.RPC = some r)
    (hb : c.Spec.JobManagerSpec.Ports.Blob = some b)
    (hq : c.Spec.JobManagerSpec.Ports.Query = some q)
    (hu : c.Spec.JobManagerSpec.Ports.UI = some u) :
    getDesiredJobManagerService c = some
      { ObjectMeta := {
          Namespace := c.ObjectMeta.Namespace
          Name := c.ObjectMeta.Name ++ "-jobmanager"
          OwnerReferences := [toOwnerReference c]
          Labels := ⟨[("cluster", c.ObjectMeta.Name), ("app", "flink"), ("component", "jobmanager")]⟩ }
        Spec := {
          Selector := ⟨[("cluster", c.ObjectMeta.Name), ("app", "flink"), ("component", "jobmanager")]⟩
          Ports := [
            { Name := "rpc", Port := r, TargetPort := IntOrString.FromString "rpc" },
            { Name := "blob", Port := b, TargetPort := IntOrString.FromString "blob" },
            { Name := "query", Port := q, TargetPort := IntOrString.FromString "query" },
            { Name := "ui", Port := u, TargetPort := IntOrString.FromString "ui" }] } } := by
  simp only [getDesiredJobManagerService, hr, hb, hq, hu, labels_literal]
  rfl

/-- Closed form of the TaskManager deployment when its four pointers are set. -/
theorem getDesiredTaskManagerDeployment_eq (c : FlinkSessionCluster) (img : String)
    (d r q : Int)
    (hi : c.Spec.ImageSpec.URI = some img)
    (hd : c.Spec.TaskManagerSpec.Ports.Data = some d)
    (hr : c.Spec.TaskManagerSpec.Ports.RPC = some r)
    (hq : c.Spec.TaskManagerSpec.Ports.Query = some q) :
    getDesiredTaskManagerDeployment c = some
      { ObjectMeta := {
          Namespace := c.ObjectMeta.Namespace
          Name := c.ObjectMeta.Name ++ "-taskmanager"
          OwnerReferences := [toOwnerReference c]
          Labels := ⟨[("cluster", c.ObjectMeta.Name), ("app", "flink"), ("component", "taskmanager")]⟩ }
        Spec := {
          Replicas := c.Spec.TaskManagerSpec.Replicas
          Selector := some ⟨⟨[("cluster", c.ObjectMeta.Name), ("app", "flink"), ("component", "taskmanager")]⟩⟩
          Template := {
            ObjectMeta := {
              Labels := ⟨[("cluster", c.ObjectMeta.Name), ("app", "flink"), ("component", "taskmanager")]⟩ }
            Spec := {
              Containers := [
                { Name := "taskmanager"
                  Image := img
                  Args := ["taskmanager"]
                  Ports := [{ Name := "data", ContainerPort := d }, { Name := "rpc", ContainerPort := r },
                    { Name := "query", ContainerPort := q }]
                  Env := [{ Name := "JOB_MANAGER_RPC_ADDRESS", Value := c.ObjectMeta.Name ++ "-jobmanager" }] }] } } } } := by
  simp only [getDesiredTaskManagerDeployment, hi, hd, hr, hq, labels_literal]
  rfl

/-- The owner reference depends on the API version, kind, name and UID of the
cluster only. -/
theorem toOwnerReference_congr (c1 c2 : FlinkSessionCluster)
    (hA : c1.TypeMeta.APIVersion = c2.TypeMeta.APIVersion)
    (hK : c1.TypeMeta.Kind = c2.TypeMeta.Kind)
    (hn : c1.ObjectMeta.Name = c2.ObjectMeta.Name)
    (hu : c1.ObjectMeta.UID = c2.ObjectMeta.UID) :
    toOwnerReference c1 = toOwnerReference c2 := by
  simp only [toOwnerReference, FlinkSessionCluster.APIVersion, FlinkSessionCluster.Kind,
    FlinkSessionCluster.Name, FlinkSessionCluster.UID, hA, hK, hn, hu]

/-- The JobManager deployment depends on the owner-reference fields, the
namespace, the image URI and the JobManager spec only. -/
theorem getDesiredJobManagerDeployment_congr (c1 c2 : FlinkSessionCluster)
    (hA : c1.TypeMeta.APIVersion = c2.TypeMeta.APIVersion)
    (hK : c1.TypeMeta.Kind = c2.TypeMeta.Kind)
    (hns : c1.ObjectMeta.Namespace = c2.ObjectMeta.Namespace)
    (hn : c1.ObjectMeta.Name = c2.ObjectMeta.Name)
    (hu : c1.ObjectMeta.UID = c2.ObjectMeta.UID)
    (hi : c1.Spec.ImageSpec.URI = c2.Spec.ImageSpec.URI)
    (hj : c1.Spec.JobManagerSpec = c2.Spec.JobManagerSpec) :
    getDesiredJobManagerDeployment c1 = getDesiredJobManagerDeployment c2 := by
  simp only [getDesiredJobManagerDeployment, toOwnerReference_congr c1 c2 hA hK hn hu,
    hns, hn, hi, hj]

/-- The JobManager service depends on the owner-reference fields, the namespace
and the JobManager ports only. -/
theorem getDesiredJobManagerService_congr (c1 c2 : FlinkSessionCluster)
    (hA : c1.TypeMeta.APIVersion = c2.TypeMeta.APIVersion)
    (hK : c1.TypeMeta.Kind = c2.TypeMeta.Kind)
    (hns : c1.ObjectMeta.Namespace = c2.ObjectMeta.Namespace)
    (hn : c1.ObjectMeta.Name = c2.ObjectMeta.Name)
    (hu : c1.ObjectMeta.UID = c2.ObjectMeta.UID)
    (hp : c1.Spec.JobManagerSpec.Ports = c2.Spec.JobManagerSpec.Ports) :
    getDesiredJobManagerService c1 = getDesiredJobManagerService c2 := by
  simp only [getDesiredJobManagerService, toOwnerReference_congr c1 c2 hA hK hn hu,
    hns, hn, hp]

/-- The TaskManager deployment depends on the owner-reference fields, the
namespace, the image URI and the TaskManager spec only. -/
theorem getDesiredTaskManagerDeployment_congr (c1 c2 : FlinkSessionCluster)
    (hA : c1.TypeMeta.APIVersion = c2.TypeMeta.APIVersion)
    (hK : c1.TypeMeta.Kind = c2.TypeMeta.Kind)
    (hns : c1.ObjectMeta.Namespace = c2.ObjectMeta.Namespace)
    (hn : c1.ObjectMeta.Name = c2.ObjectMeta.Name)
    (hu : c1.ObjectMeta.UID = c2.ObjectMeta.UID)
    (hi : c1.Spec.ImageSpec.URI = c2.Spec.ImageSpec.URI)
    (ht : c1.Spec.TaskManagerSpec = c2.Spec.TaskManagerSpec) :
    getDesiredTaskManagerDeployment c1 = getDesiredTaskManagerDeployment c2 := by
  simp only [getDesiredTaskManagerDeployment, toOwnerReference_congr c1 c2 hA hK hn hu,
    hns, hn, hi, ht]

/-- The JobManager deployment builder fails exactly when the image URI or one
of the four JobManager ports is unset. -/
theorem getDesiredJobManagerDeployment_eq_none_iff (c : FlinkSessionCluster) :
    getDesiredJobManagerDeployment c = none ↔
      c.Spec.ImageSpec.URI = none ∨
      c.Spec.JobManagerSpec.Ports.RPC = none ∨
      c.Spec.JobManagerSpec.Ports.Blob = none ∨
      c.Spec.JobManagerSpec.Ports.Query = none ∨
      c.Spec.JobManagerSpec.Ports.UI = none := by
  cases hi : c.Spec.ImageSpec.URI <;>
  cases hr : c.Spec.JobManagerSpec.Ports.RPC <;>
  cases hb : c.Spec.JobManagerSpec.Ports.Blob <;>
  cases hq : c.Spec.JobManagerSpec.Ports.Query <;>
  cases hu : c.Spec.JobManagerSpec.Ports.UI <;>
  simp [getDesiredJobManagerDeployment, hi, hr, hb, hq, hu]

/-- The JobManager service builder fails exactly when one of the four
JobManager ports is unset. -/
theorem getDesiredJobManagerService_eq_none_iff (c : FlinkSessionCluster) :
    getDesiredJobManagerService c = none ↔
      c.Spec.JobManagerSpec.Ports.RPC = none ∨
      c.Spec.JobManagerSpec.Ports.Blob = none ∨
      c.Spec.JobManagerSpec.Ports.Query = none ∨
      c.Spec.JobManagerSpec.Ports.UI = none := by
  cases hr : c.Spec.JobManagerSpec.Ports.RPC <;>
  cases hb : c.Spec.JobManagerSpec.Ports.Blob <;>
  cases hq : c.Spec.JobManagerSpec.Ports.Query <;>
  cases hu : c.Spec.JobManagerSpec.Ports.UI <;>
  simp [getDesiredJobManagerService, hr, hb, hq, hu]

/-- The TaskManager deployment builder fails exactly when the image URI or one
of the three TaskManager ports is unset. -/
theorem getDesiredTaskManagerDeployment_eq_none_iff (c : FlinkSessionCluster) :
    getDesiredTaskManagerDeployment c = none ↔
      c.Spec.ImageSpec.URI = none ∨
      c.Spec.TaskManagerSpec.Ports.Data = none ∨
      c.Spec.TaskManagerSpec.Ports.RPC = none ∨
      c.Spec.TaskManagerSpec.Ports.Query = none := by
  cases hi : c.Spec.ImageSpec.URI <;>
  cases hd : c.Spec.TaskManagerSpec.Ports.Data <;>
  cases hr : c.Spec.TaskManagerSpec.Ports.RPC <;>
  cases hq : c.Spec.TaskManagerSpec.Ports.Query <;>
  simp [getDesiredTaskManagerDeployment, hi, hd, hr, hq]

/-- Appending the same suffix to two strings is injective. -/
theorem append_suffix_injective (a b s : String) (h : a ++ s = b ++ s) : a = b := by
  have hdata := congrArg String.data h
  simp only [String.data_append] at hdata
  exact String.ext (List.append_cancel_right hdata)

/-- No JobManager name is a TaskManager name: eight characters from the end
the former has a `b` and the latter a `k`. -/
theorem jobmanager_name_ne_taskmanager_name (a b : String) :
    a ++ "-jobmanager" ≠ b ++ "-taskmanager" := by
  intro h
  have hchar := congrArg (fun s => (s.data.reverse)[7]?) h
  simp at hchar

/-! ## Properties of the converter -/

/-- C1, naming invariant: for every cluster whose dereferenced fields are all
set, the three builders return a resource, the JobManager deployment and the
JobManager service are both named `N ++ "-jobmanager"` and the TaskManager
deployment is named `N ++ "-taskmanager"`, `N` being the cluster name. -/
theorem naming_invariant (c : FlinkSessionCluster) (h : c.dereferencedFieldsSet = true) :
    ∃ jd js td,
      getDesiredJobManagerDeployment c = some jd ∧
      getDesiredJobManagerService c = some js ∧
      getDesiredTaskManagerDeployment c = some td ∧
      jd.ObjectMeta.Name = c.ObjectMeta.Name ++ "-jobmanager" ∧
      js.ObjectMeta.Name = c.ObjectMeta.Name ++ "-jobmanager" ∧
      td.ObjectMeta.Name = c.ObjectMeta.Name ++ "-taskmanager" := by
  obtain ⟨img, r, b, q, u, d, r', q', hi, hr, hb, hq, hu, hd, hr', hq'⟩ :=
    dereferencedFieldsSet_values c h
  exact ⟨_, _, _, getDesiredJobManagerDeployment_eq c img r b q u hi hr hb hq hu,
    getDesiredJobManagerService_eq c r b q u hr hb hq hu,
    getDesiredTaskManagerDeployment_eq c img d r' q' hi hd hr' hq', rfl, rfl, rfl⟩

/-- Witness of C1 on the `wordcount` cluster. -/
theorem naming_invariant_witness :
    wordcount.dereferencedFieldsSet = true ∧
    ∃ jd js td,
      getDesiredJobManagerDeployment wordcount = some jd ∧
      getDesiredJobManagerService wordcount = some js ∧
      getDesiredTaskManagerDeployment wordcount = some td ∧
      jd.ObjectMeta.Name = wordcount.ObjectMeta.Name ++ "-jobmanager" ∧
      js.ObjectMeta.Name = wordcount.ObjectMeta.Name ++ "-jobmanager" ∧
      td.ObjectMeta.Name = wordcount.ObjectMeta.Name ++ "-taskmanager" :=
  ⟨by decide, naming_invariant wordcount (by decide)⟩

/-- C2, wiring invariant: for every cluster whose dereferenced fields are all
set, the single container of the TaskManager deployment has exactly one
environment variable, `JOB_MANAGER_RPC_ADDRESS`, which is also the name of the
one variable of the JobManager container, and its value is the name of the
JobManager deployment, which is the name of the JobManager service as well. -/
theorem wiring_invariant (c : FlinkSessionCluster) (h : c.dereferencedFieldsSet = true) :
    ∃ jd js td jc tc,
      getDesiredJobManagerDeployment c = some jd ∧
      getDesiredJobManagerService c = some js ∧
      getDesiredTaskManagerDeployment c = some td ∧
      jd.Spec.Template.Spec.Containers = [jc] ∧
      td.Spec.Template.Spec.Containers = [tc] ∧
      tc.Env = [{ Name := "JOB_MANAGER_RPC_ADDRESS", Value := jd.ObjectMeta.Name }] ∧
      jc.Env.map EnvVar.Name = tc.Env.map EnvVar.Name ∧
      jd.ObjectMeta.Name = js.ObjectMeta.Name := by
  obtain ⟨img, r, b, q, u, d, r', q', hi, hr, hb, hq, hu, hd, hr', hq'⟩ :=
    dereferencedFieldsSet_values c h
  exact ⟨_, _, _, _, _, getDesiredJobManagerDeployment_eq c img r b q u hi hr hb hq hu,
    getDesiredJobManagerService_eq c r b q u hr hb hq hu,
    getDesiredTaskManagerDeployment_eq c img d r' q' hi hd hr' hq', rfl, rfl, rfl, rfl, rfl⟩

/-- Witness of C2 on the `pagerank` cluster. -/
theorem wiring_invariant_witness :
    pagerank.dereferencedFieldsSet = true ∧
    ∃ jd js td jc tc,
      getDesiredJobManagerDeployment pagerank = some jd ∧
      getDesiredJobManagerService pagerank = some js ∧
      getDesiredTaskManagerDeployment pagerank = some td ∧
      jd.Spec.Template.Spec.Containers = [jc] ∧
      td.Spec.Template.Spec.Containers = [tc] ∧
      tc.Env = [{ Name := "JOB_MANAGER_RPC_ADDRESS", Value := jd.ObjectMeta.Name }] ∧
      jc.Env.map EnvVar.Name = tc.Env.map EnvVar.Name ∧
      jd.ObjectMeta.Name = js.ObjectMeta.Name :=
  ⟨by decide, wiring_invariant pagerank (by decide)⟩

/-- C3, label consistency: for every cluster whose dereferenced fields are all
set, the selector of the JobManager service equals the label map of the
JobManager deployment (so both hold the same value under every key), and that
map has three entries: `cluster` is the cluster name, `app` is `flink` and
`component` is `jobmanager`. -/
theorem label_consistency (c : FlinkSessionCluster) (h : c.dereferencedFieldsSet = true) :
    ∃ jd js,
      getDesiredJobManagerDeployment c = some jd ∧
      getDesiredJobManagerService c = some js ∧
      js.Spec.Selector = jd.ObjectMeta.Labels ∧
      (∀ k, js.Spec.Selector.get? k = jd.ObjectMeta.Labels.get? k) ∧
      jd.ObjectMeta.Labels.len = 3 ∧
      jd.ObjectMeta.Labels.get? "cluster" = some c.Name ∧
      jd.ObjectMeta.Labels.get? "app" = some "flink" ∧
      jd.ObjectMeta.Labels.get? "component" = some "jobmanager" := by
  obtain ⟨img, r, b, q, u, d, r', q', hi, hr, hb, hq, hu, hd, hr', hq'⟩ :=
    dereferencedFieldsSet_values c h
  exact ⟨_, _, getDesiredJobManagerDeployment_eq c img r b q u hi hr hb hq hu,
    getDesiredJobManagerService_eq c r b q u hr hb hq hu, rfl, fun _ => rfl, rfl, rfl, rfl, rfl⟩

/-- Witness of C3 on the `wordcount` cluster. -/
theorem label_consistency_witness :
    wordcount.dereferencedFieldsSet = true ∧
    ∃ jd js,
      getDesiredJobManagerDeployment wordcount = some jd ∧
      getDesiredJobManagerService wordcount = some js ∧
      js.Spec.Selector = jd.ObjectMeta.Labels ∧
      (∀ k, js.Spec.Selector.get? k = jd.ObjectMeta.Labels.get? k) ∧
      jd.ObjectMeta.Labels.len = 3 ∧
      jd.ObjectMeta.Labels.get? "cluster" = some wordcount.Name ∧
      jd.ObjectMeta.Labels.get? "app" = some "flink" ∧
      jd.ObjectMeta.Labels.get? "component" = some "jobmanager" :=
  ⟨by decide, label_consistency wordcount (by decide)⟩

/-- C4, the JobManager service targets the JobManager pods only: for every
cluster `c` whose dereferenced fields are all set, the selector of its
JobManager service matches the pod-template labels of its JobManager
deployment and does not match the pod-template labels of its TaskManager
deployment; and for every other such cluster `c'` with a different name, the
selector generated from `c` matches neither the JobManager nor the TaskManager
pod-template labels generated from `c'`. -/
theorem service_targets_only_jobmanager (c c' : FlinkSessionCluster)
    (h : c.dereferencedFieldsSet = true) (h' : c'.dereferencedFieldsSet = true)
    (hne : c'.Name ≠ c.Name) :
    ∃ jd js td jd' td',
      getDesiredJobManagerDeployment c = some jd ∧
      getDesiredJobManagerService c = some js ∧
      getDesiredTaskManagerDeployment c = some td ∧
      getDesiredJobManagerDeployment c' = some jd' ∧
      getDesiredTaskManagerDeployment c' = some td' ∧
      selectorMatches js.Spec.Selector jd.Spec.Template.ObjectMeta.Labels = true ∧
      selectorMatches js.Spec.Selector td.Spec.Template.ObjectMeta.Labels = false ∧
      selectorMatches js.Spec.Selector jd'.Spec.Template.ObjectMeta.Labels = false ∧
      selectorMatches js.Spec.Selector td'.Spec.Template.ObjectMeta.Labels = false := by
  obtain ⟨img, r, b, q, u, d, r', q', hi, hr, hb, hq, hu, hd, hr', hq'⟩ :=
    dereferencedFieldsSet_values c h
  obtain ⟨img', s, b', t, u', d', s', t', hi', hs, hb', ht, hu', hd', hs', ht'⟩ :=
    dereferencedFieldsSet_values c' h'
  have hname : ¬ c'.ObjectMeta.Name = c.ObjectMeta.Name := hne
  refine ⟨_, _, _, _, _, getDesiredJobManagerDeployment_eq c img r b q u hi hr hb hq hu,
    getDesiredJobManagerService_eq c r b q u hr hb hq hu,
    getDesiredTaskManagerDeployment_eq c img d r' q' hi hd hr' hq',
    getDesiredJobManagerDeployment_eq c' img' s b' t u' hi' hs hb' ht hu',
    getDesiredTaskManagerDeployment_eq c' img' d' s' t' hi' hd' hs' ht', ?_, ?_, ?_, ?_⟩
  · simp [selectorMatches, StringMap.get?, List.lookup]
  · simp [selectorMatches, StringMap.get?, List.lookup]
  · simp [selectorMatches, StringMap.get?, List.lookup, hname]
  · simp [selectorMatches, StringMap.get?, List.lookup, hname]

/-- Witness of C4 on the clusters `wordcount` and `pagerank`. -/
theorem service_targets_only_jobmanager_witness :
    wordcount.dereferencedFieldsSet = true ∧ pagerank.dereferencedFieldsSet = true ∧
    pagerank.Name ≠ wordcount.Name ∧
    ∃ jd js td jd' td',
      getDesiredJobManagerDeployment wordcount = some jd ∧
      getDesiredJobManagerService wordcount = some js ∧
      getDesiredTaskManagerDeployment wordcount = some td ∧
      getDesiredJobManagerDeployment pagerank = some jd' ∧
      getDesiredTaskManagerDeployment pagerank = some td' ∧
      selectorMatches js.Spec.Selector jd.Spec.Template.ObjectMeta.Labels = true ∧
      selectorMatches js.Spec.Selector td.Spec.Template.ObjectMeta.Labels = false ∧
      selectorMatches js.Spec.Selector jd'.Spec.Template.ObjectMeta.Labels = false ∧
      selectorMatches js.Spec.Selector td'.Spec.Template.ObjectMeta.Labels = false :=
  ⟨by decide, by decide, by decide,
    service_targets_only_jobmanager wordcount pagerank (by decide) (by decide) (by decide)⟩

/-- C5, port fidelity: for every cluster whose dereferenced fields are all set,
with JobManager ports RPC `r`, Blob `b`, Query `q`, UI `u` and TaskManager
ports Data `d`, RPC `r'`, Query `q'`, the JobManager container has exactly the
ports `rpc: r, blob: b, query: q, ui: u` in this order, the TaskManager
container exactly `data: d, rpc: r', query: q'` in this order, and the
JobManager service exactly four ports named `rpc, blob, query, ui` with port
numbers `r, b, q, u`. -/
theorem port_fidelity (c : FlinkSessionCluster) (r b q u d r' q' : Int)
    (h : c.dereferencedFieldsSet = true)
    (hr : c.Spec.JobManagerSpec.Ports.RPC = some r)
    (hb : c.Spec.JobManagerSpec.Ports.Blob = some b)
    (hq : c.Spec.JobManagerSpec.Ports.Query = some q)
    (hu : c.Spec.JobManagerSpec.Ports.UI = some u)
    (hd : c.Spec.TaskManagerSpec.Ports.Data = some d)
    (hr' : c.Spec.TaskManagerSpec.Ports.RPC = some r')
    (hq' : c.Spec.TaskManagerSpec.Ports.Query = some q') :
    ∃ jd js td jc tc,
      getDesiredJobManagerDeployment c = some jd ∧
      getDesiredJobManagerService c = some js ∧
      getDesiredTaskManagerDeployment c = some td ∧
      jd.Spec.Template.Spec.Containers = [jc] ∧
      td.Spec.Template.Spec.Containers = [tc] ∧
      jc.Ports = [{ Name := "rpc", ContainerPort := r }, { Name := "blob", ContainerPort := b },
        { Name := "query", ContainerPort := q }, { Name := "ui", ContainerPort := u }] ∧
      tc.Ports = [{ Name := "data", ContainerPort := d }, { Name := "rpc", ContainerPort := r' },
        { Name := "query", ContainerPort := q' }] ∧
      js.Spec.Ports.map (fun p => (p.Name, p.Port)) =
        [("rpc", r), ("blob", b), ("query", q), ("ui", u)] := by
  obtain ⟨img, _, _, _, _, _, _, _, hi, _⟩ := dereferencedFieldsSet_values c h
  exact ⟨_, _, _, _, _, getDesiredJobManagerDeployment_eq c img r b q u hi hr hb hq hu,
    getDesiredJobManagerService_eq c r b q u hr hb hq hu,
    getDesiredTaskManagerDeployment_eq c img d r' q' hi hd hr' hq', rfl, rfl, rfl, rfl, rfl⟩

/-- Witness of C5 on the `pagerank` cluster. -/
theorem port_fidelity_witness :
    pagerank.dereferencedFieldsSet = true ∧
    ∃ jd js td jc tc,
      getDesiredJobManagerDeployment pagerank = some jd ∧
      getDesiredJobManagerService pagerank = some js ∧
      getDesiredTaskManagerDeployment pagerank = some td ∧
      jd.Spec.Template.Spec.Containers = [jc] ∧
      td.Spec.Template.Spec.Containers = [tc] ∧
      jc.Ports = [{ Name := "rpc", ContainerPort := 7123 }, { Name := "blob", ContainerPort := 7124 },
        { Name := "query", ContainerPort := 7125 }, { Name := "ui", ContainerPort := 9081 }] ∧
      tc.Ports = [{ Name := "data", ContainerPort := 7121 }, { Name := "rpc", ContainerPort := 7122 },
        { Name := "query", ContainerPort := 7126 }] ∧
      js.Spec.Ports.map (fun p => (p.Name, p.Port)) =
        [("rpc", 7123), ("blob", 7124), ("query", 7125), ("ui", 9081)] :=
  ⟨by decide, port_fidelity pagerank 7123 7124 7125 9081 7121 7122 7126 (by decide)
    rfl rfl rfl rfl rfl rfl rfl⟩

/-- C6, service-to-container port routing: for every cluster whose
dereferenced fields are all set, the JobManager service has exactly the four
ports named `rpc`, `blob`, `query` and `ui`, one for each port of the single
container of the JobManager deployment and in the same order, and for every
port `p` of the service the target of `p` is of the string kind and names
`p.Name`, and the container has exactly one port named `p.Name`, whose number
is `p.Port`. -/
theorem service_port_routing (c : FlinkSessionCluster) (h : c.dereferencedFieldsSet = true) :
    ∃ jd js jc,
      getDesiredJobManagerDeployment c = some jd ∧
      getDesiredJobManagerService c = some js ∧
      jd.Spec.Template.Spec.Containers = [jc] ∧
      js.Spec.Ports.map ServicePort.Name = ["rpc", "blob", "query", "ui"] ∧
      js.Spec.Ports.map ServicePort.Name = jc.Ports.map ContainerPort.Name ∧
      js.Spec.Ports.map ServicePort.Port = jc.Ports.map ContainerPort.ContainerPort ∧
      ∀ p ∈ js.Spec.Ports,
        p.TargetPort.Type_ = IntOrStringType.string ∧
        p.TargetPort.StrVal = p.Name ∧
        ∃ cp, jc.Ports.filter (fun x => x.Name == p.Name) = [cp] ∧
          cp.ContainerPort = p.Port := by
  obtain ⟨img, r, b, q, u, d, r', q', hi, hr, hb, hq, hu, hd, hr', hq'⟩ :=
    dereferencedFieldsSet_values c h
  refine ⟨_, _, _, getDesiredJobManagerDeployment_eq c img r b q u hi hr hb hq hu,
    getDesiredJobManagerService_eq c r b q u hr hb hq hu, rfl, rfl, rfl, rfl, ?_⟩
  intro p hp
  simp only [List.mem_cons, List.mem_singleton, List.not_mem_nil, or_false] at hp
  rcases hp with rfl | rfl | rfl | rfl
  · exact ⟨rfl, rfl, _, rfl, rfl⟩
  · exact ⟨rfl, rfl, _, rfl, rfl⟩
  · exact ⟨rfl, rfl, _, rfl, rfl⟩
  · exact ⟨rfl, rfl, _, rfl, rfl⟩

/-- Witness of C6 on the `wordcount` cluster: the service has its four ports,
and each is routed by name to the container port of the same number. -/
theorem service_port_routing_witness :
    wordcount.dereferencedFieldsSet = true ∧
    ∃ jd js jc,
      getDesiredJobManagerDeployment wordcount = some jd ∧
      getDesiredJobManagerService wordcount = some js ∧
      jd.Spec.Template.Spec.Containers = [jc] ∧
      js.Spec.Ports.map ServicePort.Name = ["rpc", "blob", "query", "ui"] ∧
      js.Spec.Ports.map ServicePort.Name = jc.Ports.map ContainerPort.Name ∧
      js.Spec.Ports.map ServicePort.Port = jc.Ports.map ContainerPort.ContainerPort ∧
      ∀ p ∈ js.Spec.Ports,
        p.TargetPort.Type_ = IntOrStringType.string ∧
        p.TargetPort.StrVal = p.Name ∧
        ∃ cp, jc.Ports.filter (fun x => x.Name == p.Name) = [cp] ∧
          cp.ContainerPort = p.Port :=
  ⟨by decide, service_port_routing wordcount (by decide)⟩

/-- C7, ownership propagation: for every cluster whose dereferenced fields are
all set, each of the three generated resources has exactly one owner
reference, which is `toOwnerReference c`: it carries the API version, kind,
name and UID of the cluster, `Controller` is set and true, and
`BlockOwnerDeletion` is set and false. -/
theorem ownership_propagation (c : FlinkSessionCluster) (h : c.dereferencedFieldsSet = true) :
    ∃ jd js td,
      getDesiredJobManagerDeployment c = some jd ∧
      getDesiredJobManagerService c = some js ∧
      getDesiredTaskManagerDeployment c = some td ∧
      jd.ObjectMeta.OwnerReferences = [toOwnerReference c] ∧
      js.ObjectMeta.OwnerReferences = [toOwnerReference c] ∧
      td.ObjectMeta.OwnerReferences = [toOwnerReference c] ∧
      toOwnerReference c =
        { APIVersion := c.TypeMeta.APIVersion
          Kind := c.TypeMeta.Kind
          Name := c.ObjectMeta.Name
          UID := c.ObjectMeta.UID
          Controller := some true
          BlockOwnerDeletion := some false } := by
  obtain ⟨img, r, b, q, u, d, r', q', hi, hr, hb, hq, hu, hd, hr', hq'⟩ :=
    dereferencedFieldsSet_values c h
  exact ⟨_, _, _, getDesiredJobManagerDeployment_eq c img r b q u hi hr hb hq hu,
    getDesiredJobManagerService_eq c r b q u hr hb hq hu,
    getDesiredTaskManagerDeployment_eq c img d r' q' hi hd hr' hq', rfl, rfl, rfl, rfl⟩

/-- Witness of C7 on the `wordcount` cluster. -/
theorem ownership_propagation_witness :
    wordcount.dereferencedFieldsSet = true ∧
    ∃ jd js td,
      getDesiredJobManagerDeployment wordcount = some jd ∧
      getDesiredJobManagerService wordcount = some js ∧
      getDesiredTaskManagerDeployment wordcount = some td ∧
      jd.ObjectMeta.OwnerReferences = [toOwnerReference wordcount] ∧
      js.ObjectMeta.OwnerReferences = [toOwnerReference wordcount] ∧
      td.ObjectMeta.OwnerReferences = [toOwnerReference wordcount] ∧
      toOwnerReference wordcount =
        { APIVersion := "flinkoperator.k8s.io/v1alpha1"
          Kind := "FlinkSessionCluster"
          Name := "wordcount"
          UID := "uid-1"
          Controller := some true
          BlockOwnerDeletion := some false } :=
  ⟨by decide, ownership_propagation wordcount (by decide)⟩

/-- C8, JobManager container shape: for every cluster whose dereferenced
fields are all set, with name `N` and image URI `I`, the JobManager deployment
is named `N ++ "-jobmanager"` in the namespace of the cluster and its pod
template has exactly one container, named `jobmanager`, with image `I`,
arguments `["jobmanager"]`, the four ports of the cluster numbered as in the
cluster spec, and the one environment variable
`JOB_MANAGER_RPC_ADDRESS = N ++ "-jobmanager"`. -/
theorem jobmanager_container_shape (c : FlinkSessionCluster) (N I : String)
    (h : c.dereferencedFieldsSet = true)
    (hN : c.ObjectMeta.Name = N) (hI : c.Spec.ImageSpec.URI = some I) :
    ∃ jd jc,
      getDesiredJobManagerDeployment c = some jd ∧
      jd.ObjectMeta.Name = N ++ "-jobmanager" ∧
      jd.ObjectMeta.Namespace = c.ObjectMeta.Namespace ∧
      jd.Spec.Template.Spec.Containers = [jc] ∧
      jc.Name = "jobmanager" ∧
      jc.Image = I ∧
      jc.Args = ["jobmanager"] ∧
      jc.Ports.map (fun p => (p.Name, some p.ContainerPort)) =
        [("rpc", c.Spec.JobManagerSpec.Ports.RPC), ("blob", c.Spec.JobManagerSpec.Ports.Blob),
          ("query", c.Spec.JobManagerSpec.Ports.Query), ("ui", c.Spec.JobManagerSpec.Ports.UI)] ∧
      jc.Env = [{ Name := "JOB_MANAGER_RPC_ADDRESS", Value := N ++ "-jobmanager" }] := by
  obtain ⟨img, r, b, q, u, d, r', q', hi, hr, hb, hq, hu, hd, hr', hq'⟩ :=
    dereferencedFieldsSet_values c h
  obtain rfl : img = I := Option.some.inj (hi.symm.trans hI)
  subst hN
  refine ⟨_, _, getDesiredJobManagerDeployment_eq c img r b q u hi hr hb hq hu,
    rfl, rfl, rfl, rfl, rfl, rfl, ?_, rfl⟩
  rw [hr, hb, hq, hu]
  rfl

/-- Witness of C8: the example scenario of the specification, cluster
`wordcount` in namespace `flink` with image `flink:1.9` and JobManager ports
6123, 6124, 6125 and 8081. -/
theorem jobmanager_container_shape_witness :
    wordcount.dereferencedFieldsSet = true ∧
    wordcount.ObjectMeta.Name = "wordcount" ∧
    wordcount.Spec.ImageSpec.URI = some "flink:1.9" ∧
    ∃ jd jc,
      getDesiredJobManagerDeployment wordcount = some jd ∧
      jd.ObjectMeta.Name = "wordcount-jobmanager" ∧
      jd.ObjectMeta.Namespace = "flink" ∧
      jd.Spec.Template.Spec.Containers = [jc] ∧
      jc.Name = "jobmanager" ∧
      jc.Image = "flink:1.9" ∧
      jc.Args = ["jobmanager"] ∧
      jc.Ports.map (fun p => (p.Name, some p.ContainerPort)) =
        [("rpc", some 6123), ("blob", some 6124), ("query", some 6125), ("ui", some 8081)] ∧
      jc.Env = [{ Name := "JOB_MANAGER_RPC_ADDRESS", Value := "wordcount-jobmanager" }] :=
  ⟨by decide, rfl, rfl,
    jobmanager_container_shape wordcount "wordcount" "flink:1.9" (by decide) rfl rfl⟩

/-- C9, TaskManager container shape: for every cluster whose dereferenced
fields are all set, with image URI `I`, the pod template of the TaskManager
deployment has exactly one container, named `taskmanager`, with arguments
`["taskmanager"]` and image `I`, which is also the image of the single
container of the JobManager deployment. -/
theorem taskmanager_container_shape (c : FlinkSessionCluster) (I : String)
    (h : c.dereferencedFieldsSet = true) (hI : c.Spec.ImageSpec.URI = some I) :
    ∃ jd td jc tc,
      getDesiredJobManagerDeployment c = some jd ∧
      getDesiredTaskManagerDeployment c = some td ∧
      jd.Spec.Template.Spec.Containers = [jc] ∧
      td.Spec.Template.Spec.Containers = [tc] ∧
      tc.Name = "taskmanager" ∧
      tc.Args = ["taskmanager"] ∧
      tc.Image = I ∧
      tc.Image = jc.Image := by
  obtain ⟨img, r, b, q, u, d, r', q', hi, hr, hb, hq, hu, hd, hr', hq'⟩ :=
    dereferencedFieldsSet_values c h
  obtain rfl : img = I := Option.some.inj (hi.symm.trans hI)
  exact ⟨_, _, _, _, getDesiredJobManagerDeployment_eq c img r b q u hi hr hb hq hu,
    getDesiredTaskManagerDeployment_eq c img d r' q' hi hd hr' hq', rfl, rfl, rfl, rfl, rfl, rfl⟩

/-- Witness of C9 on the `pagerank` cluster. -/
theorem taskmanager_container_shape_witness :
    pagerank.dereferencedFieldsSet = true ∧
    pagerank.Spec.ImageSpec.URI = some "flink:1.8" ∧
    ∃ jd td jc tc,
      getDesiredJobManagerDeployment pagerank = some jd ∧
      getDesiredTaskManagerDeployment pagerank = some td ∧
      jd.Spec.Template.Spec.Containers = [jc] ∧
      td.Spec.Template.Spec.Containers = [tc] ∧
      tc.Name = "taskmanager" ∧
      tc.Args = ["taskmanager"] ∧
      tc.Image = "flink:1.8" ∧
      tc.Image = jc.Image :=
  ⟨by decide, rfl, taskmanager_container_shape pagerank "flink:1.8" (by decide) rfl⟩

/-- C10, exactly three labels: for every cluster whose dereferenced fields are
all set and whose name is `N`, any string at all, the label map of each of the
three generated resources has exactly three entries, its keys are `cluster`,
`app` and `component` and no other, `cluster` is `N`, `app` is `flink`, and
`component` is `jobmanager` for the JobManager deployment and service and
`taskmanager` for the TaskManager deployment. -/
theorem exactly_three_labels (c : FlinkSessionCluster) (N : String)
    (h : c.dereferencedFieldsSet = true) (hN : c.ObjectMeta.Name = N) :
    ∃ jd js td,
      getDesiredJobManagerDeployment c = some jd ∧
      getDesiredJobManagerService c = some js ∧
      getDesiredTaskManagerDeployment c = some td ∧
      (∀ l ∈ [jd.ObjectMeta.Labels, js.ObjectMeta.Labels, td.ObjectMeta.Labels],
        l.len = 3 ∧
        (∀ k, k ∈ l.keys ↔ k = "cluster" ∨ k = "app" ∨ k = "component") ∧
        l.get? "cluster" = some N ∧
        l.get? "app" = some "flink") ∧
      jd.ObjectMeta.Labels.get? "component" = some "jobmanager" ∧
      js.ObjectMeta.Labels.get? "component" = some "jobmanager" ∧
      td.ObjectMeta.Labels.get? "component" = some "taskmanager" := by
  obtain ⟨img, r, b, q, u, d, r', q', hi, hr, hb, hq, hu, hd, hr', hq'⟩ :=
    dereferencedFieldsSet_values c h
  subst hN
  refine ⟨_, _, _, getDesiredJobManagerDeployment_eq c img r b q u hi hr hb hq hu,
    getDesiredJobManagerService_eq c r b q u hr hb hq hu,
    getDesiredTaskManagerDeployment_eq c img d r' q' hi hd hr' hq', ?_, rfl, rfl, rfl⟩
  intro l hl
  simp only [List.mem_cons, List.mem_singleton, List.not_mem_nil, or_false] at hl
  rcases hl with rfl | rfl | rfl <;>
    exact ⟨rfl, fun k => by simp [StringMap.keys], rfl, rfl⟩

/-- Witness of C10 on the cluster whose name is the empty string. -/
theorem exactly_three_labels_witness :
    unnamed.dereferencedFieldsSet = true ∧
    unnamed.ObjectMeta.Name = "" ∧
    ∃ jd js td,
      getDesiredJobManagerDeployment unnamed = some jd ∧
      getDesiredJobManagerService unnamed = some js ∧
      getDesiredTaskManagerDeployment unnamed = some td ∧
      (∀ l ∈ [jd.ObjectMeta.Labels, js.ObjectMeta.Labels, td.ObjectMeta.Labels],
        l.len = 3 ∧
        (∀ k, k ∈ l.keys ↔ k = "cluster" ∨ k = "app" ∨ k = "component") ∧
        l.get? "cluster" = some "" ∧
        l.get? "app" = some "flink") ∧
      jd.ObjectMeta.Labels.get? "component" = some "jobmanager" ∧
      js.ObjectMeta.Labels.get? "component" = some "jobmanager" ∧
      td.ObjectMeta.Labels.get? "component" = some "taskmanager" :=
  ⟨by decide, rfl, exactly_three_labels unnamed "" (by decide) rfl⟩

/-- C11, namespace preservation: for every cluster whose dereferenced fields
are all set, the JobManager deployment, the JobManager service and the
TaskManager deployment are each in the namespace of the cluster, unchanged. -/
theorem namespace_preservation (c : FlinkSessionCluster) (h : c.dereferencedFieldsSet = true) :
    ∃ jd js td,
      getDesiredJobManagerDeployment c = some jd ∧
      getDesiredJobManagerService c = some js ∧
      getDesiredTaskManagerDeployment c = some td ∧
      jd.ObjectMeta.Namespace = c.ObjectMeta.Namespace ∧
      js.ObjectMeta.Namespace = c.ObjectMeta.Namespace ∧
      td.ObjectMeta.Namespace = c.ObjectMeta.Namespace := by
  obtain ⟨img, r, b, q, u, d, r', q', hi, hr, hb, hq, hu, hd, hr', hq'⟩ :=
    dereferencedFieldsSet_values c h
  exact ⟨_, _, _, getDesiredJobManagerDeployment_eq c img r b q u hi hr hb hq hu,
    getDesiredJobManagerService_eq c r b q u hr hb hq hu,
    getDesiredTaskManagerDeployment_eq c img d r' q' hi hd hr' hq', rfl, rfl, rfl⟩

/-- Witness of C11 on the `wordcount` cluster, whose namespace is `flink`. -/
theorem namespace_preservation_witness :
    wordcount.dereferencedFieldsSet = true ∧
    ∃ jd js td,
      getDesiredJobManagerDeployment wordcount = some jd ∧
      getDesiredJobManagerService wordcount = some js ∧
      getDesiredTaskManagerDeployment wordcount = some td ∧
      jd.ObjectMeta.Namespace = "flink" ∧
      js.ObjectMeta.Namespace = "flink" ∧
      td.ObjectMeta.Namespace = "flink" :=
  ⟨by decide, namespace_preservation wordcount (by decide)⟩

/-- C12, totality: for every structurally valid cluster (image URI, the four
JobManager ports, the three TaskManager ports and both replica counts set),
each of the three builders returns a resource: the nil-dereference outcome
`none` is not reached, and each builder yields exactly one resource. -/
theorem builders_total (c : FlinkSessionCluster) (h : c.structurallyValid = true) :
    (∃! jd, getDesiredJobManagerDeployment c = some jd) ∧
    (∃! js, getDesiredJobManagerService c = some js) ∧
    (∃! td, getDesiredTaskManagerDeployment c = some td) ∧
    getDesiredJobManagerDeployment c ≠ none ∧
    getDesiredJobManagerService c ≠ none ∧
    getDesiredTaskManagerDeployment c ≠ none := by
  have hset : c.dereferencedFieldsSet = true := by
    simp only [FlinkSessionCluster.structurallyValid, Bool.and_eq_true] at h
    exact h.1.1
  obtain ⟨img, r, b, q, u, d, r', q', hi, hr, hb, hq, hu, hd, hr', hq'⟩ :=
    dereferencedFieldsSet_values c hset
  have hjd := getDesiredJobManagerDeployment_eq c img r b q u hi hr hb hq hu
  have hjs := getDesiredJobManagerService_eq c r b q u hr hb hq hu
  have htd := getDesiredTaskManagerDeployment_eq c img d r' q' hi hd hr' hq'
  refine ⟨⟨_, hjd, ?_⟩, ⟨_, hjs, ?_⟩, ⟨_, htd, ?_⟩, ?_, ?_, ?_⟩
  · intro y hy
    exact Option.some.inj (hy.symm.trans hjd)
  · intro y hy
    exact Option.some.inj (hy.symm.trans hjs)
  · intro y hy
    exact Option.some.inj (hy.symm.trans htd)
  · rw [hjd]; exact Option.some_ne_none _
  · rw [hjs]; exact Option.some_ne_none _
  · rw [htd]; exact Option.some_ne_none _

/-- Witness of C12 on the `wordcount` cluster. -/
theorem builders_total_witness :
    wordcount.structurallyValid = true ∧
    (∃! jd, getDesiredJobManagerDeployment wordcount = some jd) ∧
    (∃! js, getDesiredJobManagerService wordcount = some js) ∧
    (∃! td, getDesiredTaskManagerDeployment wordcount = some td) ∧
    getDesiredJobManagerDeployment wordcount ≠ none ∧
    getDesiredJobManagerService wordcount ≠ none ∧
    getDesiredTaskManagerDeployment wordcount ≠ none :=
  ⟨by decide, builders_total wordcount (by decide)⟩

/-- C14, no concurrency or status fields: for every cluster whose dereferenced
fields are all set, whatever its own resource version, generation,
annotations and status, the object meta of each generated resource has only
`Namespace`, `Name`, `OwnerReferences` and `Labels` populated (`UID`,
`ResourceVersion` and the other fields are at their zero value), its status is
the zero value, and replacing the resource version, generation, annotations
and status of the cluster by any others leaves the three results unchanged. -/
theorem no_concurrency_or_status_fields (c : FlinkSessionCluster)
    (h : c.dereferencedFieldsSet = true) :
    ∃ jd js td,
      getDesiredJobManagerDeployment c = some jd ∧
      getDesiredJobManagerService c = some js ∧
      getDesiredTaskManagerDeployment c = some td ∧
      (∀ m ∈ [jd.ObjectMeta, js.ObjectMeta, td.ObjectMeta],
        m.UID = "" ∧ m.ResourceVersion = "" ∧ m.Generation = 0 ∧ m.GenerateName = "" ∧
        m.Annotations = {} ∧ m.Finalizers = [] ∧
        m = { Namespace := m.Namespace, Name := m.Name,
              OwnerReferences := m.OwnerReferences, Labels := m.Labels }) ∧
      jd.Status = {} ∧ js.Status = {} ∧ td.Status = {} ∧
      ∀ (rv : String) (gen : Int) (ann : StringMap) (st : FlinkSessionClusterStatus)
        (c' : FlinkSessionCluster),
        c' = { c with
          ObjectMeta := { c.ObjectMeta with
            ResourceVersion := rv, Generation := gen, Annotations := ann }
          Status := st } →
        getDesiredJobManagerDeployment c' = some jd ∧
        getDesiredJobManagerService c' = some js ∧
        getDesiredTaskManagerDeployment c' = some td := by
  obtain ⟨img, r, b, q, u, d, r', q', hi, hr, hb, hq, hu, hd, hr', hq'⟩ :=
    dereferencedFieldsSet_values c h
  have hjd := getDesiredJobManagerDeployment_eq c img r b q u hi hr hb hq hu
  have hjs := getDesiredJobManagerService_eq c r b q u hr hb hq hu
  have htd := getDesiredTaskManagerDeployment_eq c img d r' q' hi hd hr' hq'
  refine ⟨_, _, _, hjd, hjs, htd, ?_, rfl, rfl, rfl, ?_⟩
  · intro m hm
    simp only [List.mem_cons, List.mem_singleton, List.not_mem_nil, or_false] at hm
    rcases hm with rfl | rfl | rfl <;> exact ⟨rfl, rfl, rfl, rfl, rfl, rfl, rfl⟩
  · intro rv gen ann st c' hc'
    subst hc'
    refine ⟨?_, ?_, ?_⟩
    · rw [← hjd]
      exact getDesiredJobManagerDeployment_congr _ c rfl rfl rfl rfl rfl rfl rfl
    · rw [← hjs]
      exact getDesiredJobManagerService_congr _ c rfl rfl rfl rfl rfl rfl
    · rw [← htd]
      exact getDesiredTaskManagerDeployment_congr _ c rfl rfl rfl rfl rfl rfl rfl

/-- Witness of C14 on the `wordcount` cluster, whose own resource version is
`42`. -/
theorem no_concurrency_or_status_fields_witness :
    wordcount.dereferencedFieldsSet = true ∧
    wordcount.ObjectMeta.ResourceVersion = "42" ∧
    ∃ jd js td,
      getDesiredJobManagerDeployment wordcount = some jd ∧
      getDesiredJobManagerService wordcount = some js ∧
      getDesiredTaskManagerDeployment wordcount = some td ∧
      (∀ m ∈ [jd.ObjectMeta, js.ObjectMeta, td.ObjectMeta],
        m.UID = "" ∧ m.ResourceVersion = "" ∧ m.Generation = 0 ∧ m.GenerateName = "" ∧
        m.Annotations = {} ∧ m.Finalizers = [] ∧
        m = { Namespace := m.Namespace, Name := m.Name,
              OwnerReferences := m.OwnerReferences, Labels := m.Labels }) ∧
      jd.Status = {} ∧ js.Status = {} ∧ td.Status = {} ∧
      ∀ (rv : String) (gen : Int) (ann : StringMap) (st : FlinkSessionClusterStatus)
        (c' : FlinkSessionCluster),
        c' = { wordcount with
          ObjectMeta := { wordcount.ObjectMeta with
            ResourceVersion := rv, Generation := gen, Annotations := ann }
          Status := st } →
        getDesiredJobManagerDeployment c' = some jd ∧
        getDesiredJobManagerService c' = some js ∧
        getDesiredTaskManagerDeployment c' = some td :=
  ⟨by decide, rfl, no_concurrency_or_status_fields wordcount (by decide)⟩

/-- C15, each deployment selects its own pods: for every cluster whose
dereferenced fields are all set, in the JobManager deployment and in the
TaskManager deployment the selector is set, and the labels of the deployment,
the match labels of the selector and the labels of the pod template are one
and the same map, so that the selector matches the pod template. -/
theorem deployment_selects_own_pods (c : FlinkSessionCluster)
    (h : c.dereferencedFieldsSet = true) :
    ∃ jd td,
      getDesiredJobManagerDeployment c = some jd ∧
      getDesiredTaskManagerDeployment c = some td ∧
      ∀ dep ∈ [jd, td],
        ∃ sel, dep.Spec.Selector = some sel ∧
          sel.MatchLabels = dep.ObjectMeta.Labels ∧
          dep.Spec.Template.ObjectMeta.Labels = dep.ObjectMeta.Labels ∧
          sel.MatchLabels = dep.Spec.Template.ObjectMeta.Labels ∧
          selectorMatches sel.MatchLabels dep.Spec.Template.ObjectMeta.Labels = true := by
  obtain ⟨img, r, b, q, u, d, r', q', hi, hr, hb, hq, hu, hd, hr', hq'⟩ :=
    dereferencedFieldsSet_values c h
  refine ⟨_, _, getDesiredJobManagerDeployment_eq c img r b q u hi hr hb hq hu,
    getDesiredTaskManagerDeployment_eq c img d r' q' hi hd hr' hq', ?_⟩
  intro dep hdep
  simp only [List.mem_cons, List.mem_singleton, List.not_mem_nil, or_false] at hdep
  rcases hdep with rfl | rfl
  · refine ⟨_, rfl, rfl, rfl, rfl, ?_⟩
    simp [selectorMatches, StringMap.get?, List.lookup]
  · refine ⟨_, rfl, rfl, rfl, rfl, ?_⟩
    simp [selectorMatches, StringMap.get?, List.lookup]

/-- Witness of C15 on the `pagerank` cluster. -/
theorem deployment_selects_own_pods_witness :
    pagerank.dereferencedFieldsSet = true ∧
    ∃ jd td,
      getDesiredJobManagerDeployment pagerank = some jd ∧
      getDesiredTaskManagerDeployment pagerank = some td ∧
      ∀ dep ∈ [jd, td],
        ∃ sel, dep.Spec.Selector = some sel ∧
          sel.MatchLabels = dep.ObjectMeta.Labels ∧
          dep.Spec.Template.ObjectMeta.Labels = dep.ObjectMeta.Labels ∧
          sel.MatchLabels = dep.Spec.Template.ObjectMeta.Labels ∧
          selectorMatches sel.MatchLabels dep.Spec.Template.ObjectMeta.Labels = true :=
  ⟨by decide, deployment_selects_own_pods pagerank (by decide)⟩

/-- C16, exact failure condition of each builder:
`getDesiredJobManagerDeployment` fails on a nil dereference exactly when the
image URI or one of the JobManager ports RPC, Blob, Query, UI is unset;
`getDesiredJobManagerService` exactly when one of the JobManager ports is
unset, so it succeeds with an unset image URI;
`getDesiredTaskManagerDeployment` exactly when the image URI or one of the
TaskManager ports Data, RPC, Query is unset. Whether a builder fails is
decided by these fields alone: a cluster `c'` that agrees with `c` on them
fails exactly when `c` does, whatever its replica counts and the fields of
the other role. -/
theorem exact_failure_conditions (c : FlinkSessionCluster) :
    (getDesiredJobManagerDeployment c = none ↔
      c.Spec.ImageSpec.URI = none ∨
      c.Spec.JobManagerSpec.Ports.RPC = none ∨
      c.Spec.JobManagerSpec.Ports.Blob = none ∨
      c.Spec.JobManagerSpec.Ports.Query = none ∨
      c.Spec.JobManagerSpec.Ports.UI = none) ∧
    (getDesiredJobManagerService c = none ↔
      c.Spec.JobManagerSpec.Ports.RPC = none ∨
      c.Spec.JobManagerSpec.Ports.Blob = none ∨
      c.Spec.JobManagerSpec.Ports.Query = none ∨
      c.Spec.JobManagerSpec.Ports.UI = none) ∧
    (getDesiredTaskManagerDeployment c = none ↔
      c.Spec.ImageSpec.URI = none ∨
      c.Spec.TaskManagerSpec.Ports.Data = none ∨
      c.Spec.TaskManagerSpec.Ports.RPC = none ∨
      c.Spec.TaskManagerSpec.Ports.Query = none) ∧
    (∀ c' : FlinkSessionCluster,
      c'.Spec.ImageSpec.URI = c.Spec.ImageSpec.URI →
      c'.Spec.JobManagerSpec.Ports = c.Spec.JobManagerSpec.Ports →
      (getDesiredJobManagerDeployment c' = none ↔ getDesiredJobManagerDeployment c = none)) ∧
    (∀ c' : FlinkSessionCluster,
      c'.Spec.JobManagerSpec.Ports = c.Spec.JobManagerSpec.Ports →
      (getDesiredJobManagerService c' = none ↔ getDesiredJobManagerService c = none)) ∧
    (∀ c' : FlinkSessionCluster,
      c'.Spec.ImageSpec.URI = c.Spec.ImageSpec.URI →
      c'.Spec.TaskManagerSpec.Ports = c.Spec.TaskManagerSpec.Ports →
      (getDesiredTaskManagerDeployment c' = none ↔ getDesiredTaskManagerDeployment c = none)) := by
  refine ⟨getDesiredJobManagerDeployment_eq_none_iff c, getDesiredJobManagerService_eq_none_iff c,
    getDesiredTaskManagerDeployment_eq_none_iff c, ?_, ?_, ?_⟩
  · intro c' hi hp
    rw [getDesiredJobManagerDeployment_eq_none_iff, getDesiredJobManagerDeployment_eq_none_iff,
      hi, hp]
  · intro c' hp
    rw [getDesiredJobManagerService_eq_none_iff, getDesiredJobManagerService_eq_none_iff, hp]
  · intro c' hi hp
    rw [getDesiredTaskManagerDeployment_eq_none_iff, getDesiredTaskManagerDeployment_eq_none_iff,
      hi, hp]

/-- Witness of C16 on the `portsOnly` cluster, whose image URI, replica counts
and TaskManager ports are unset: both deployment builders fail and the service
builder succeeds. -/
theorem exact_failure_conditions_witness :
    portsOnly.Spec.ImageSpec.URI = none ∧
    getDesiredJobManagerDeployment portsOnly = none ∧
    getDesiredJobManagerService portsOnly ≠ none ∧
    getDesiredTaskManagerDeployment portsOnly = none :=
  ⟨rfl, (exact_failure_conditions portsOnly).1.2 (Or.inl rfl),
    fun hnone => by
      have hports := (exact_failure_conditions portsOnly).2.1.1 hnone
      revert hports
      decide,
    (exact_failure_conditions portsOnly).2.2.1.2 (Or.inl rfl)⟩

/-- C17, replica count pass-through: whenever a deployment builder succeeds,
the `Replicas` of the JobManager deployment is the `Replicas` of the
JobManager spec and the `Replicas` of the TaskManager deployment is the
`Replicas` of the TaskManager spec, as optional values: a set count is passed
on as it is, zero and negative counts included, and an unset count stays
unset. -/
theorem replicas_pass_through (c : FlinkSessionCluster) :
    (∀ jd, getDesiredJobManagerDeployment c = some jd →
      jd.Spec.Replicas = c.Spec.JobManagerSpec.Replicas) ∧
    (∀ td, getDesiredTaskManagerDeployment c = some td →
      td.Spec.Replicas = c.Spec.TaskManagerSpec.Replicas) := by
  constructor
  · intro jd hjd
    cases hi : c.Spec.ImageSpec.URI <;>
    cases hr : c.Spec.JobManagerSpec.Ports.RPC <;>
    cases hb : c.Spec.JobManagerSpec.Ports.Blob <;>
    cases hq : c.Spec.JobManagerSpec.Ports.Query <;>
    cases hu : c.Spec.JobManagerSpec.Ports.UI <;>
    simp [getDesiredJobManagerDeployment, hi, hr, hb, hq, hu] at hjd
    subst hjd
    rfl
  · intro td htd
    cases hi : c.Spec.ImageSpec.URI <;>
    cases hd : c.Spec.TaskManagerSpec.Ports.Data <;>
    cases hr : c.Spec.TaskManagerSpec.Ports.RPC <;>
    cases hq : c.Spec.TaskManagerSpec.Ports.Query <;>
    simp [getDesiredTaskManagerDeployment, hi, hd, hr, hq] at htd
    subst htd
    rfl

/-- Witness of C17: on `scaledDown` the counts zero and minus two are passed on
unchanged and unswapped, and on `pagerank` the unset counts stay unset. -/
theorem replicas_pass_through_witness :
    (∃ jd td,
      getDesiredJobManagerDeployment scaledDown = some jd ∧
      getDesiredTaskManagerDeployment scaledDown = some td ∧
      jd.Spec.Replicas = some 0 ∧ td.Spec.Replicas = some (-2)) ∧
    (∃ jd td,
      getDesiredJobManagerDeployment pagerank = some jd ∧
      getDesiredTaskManagerDeployment pagerank = some td ∧
      jd.Spec.Replicas = none ∧ td.Spec.Replicas = none) :=
  ⟨⟨_, _, rfl, rfl, (replicas_pass_through scaledDown).1 _ rfl,
      (replicas_pass_through scaledDown).2 _ rfl⟩,
    ⟨_, _, rfl, rfl, (replicas_pass_through pagerank).1 _ rfl,
      (replicas_pass_through pagerank).2 _ rfl⟩⟩

/-- C18, generated names never collide: for all strings `N1` and `N2`, equal
JobManager names `N1 ++ "-jobmanager"` and `N2 ++ "-jobmanager"` force
`N1 = N2`, and so do equal TaskManager names, while a JobManager name is never
a TaskManager name. Hence, for any two clusters whose dereferenced fields are
all set, the JobManager deployment of either differs in name from the
TaskManager deployment of either, and the two JobManager deployments, the two
JobManager services and the two TaskManager deployments have one name only if
the two clusters have one name. -/
theorem names_never_collide (c1 c2 : FlinkSessionCluster)
    (h1 : c1.dereferencedFieldsSet = true) (h2 : c2.dereferencedFieldsSet = true) :
    (∀ N1 N2 : String,
      (N1 ++ "-jobmanager" = N2 ++ "-jobmanager" → N1 = N2) ∧
      (N1 ++ "-taskmanager" = N2 ++ "-taskmanager" → N1 = N2) ∧
      N1 ++ "-jobmanager" ≠ N2 ++ "-taskmanager") ∧
    ∃ jd1 js1 td1 jd2 js2 td2,
      getDesiredJobManagerDeployment c1 = some jd1 ∧
      getDesiredJobManagerService c1 = some js1 ∧
      getDesiredTaskManagerDeployment c1 = some td1 ∧
      getDesiredJobManagerDeployment c2 = some jd2 ∧
      getDesiredJobManagerService c2 = some js2 ∧
      getDesiredTaskManagerDeployment c2 = some td2 ∧
      jd1.ObjectMeta.Name ≠ td1.ObjectMeta.Name ∧
      jd1.ObjectMeta.Name ≠ td2.ObjectMeta.Name ∧
      jd2.ObjectMeta.Name ≠ td1.ObjectMeta.Name ∧
      (jd1.ObjectMeta.Name = jd2.ObjectMeta.Name → c1.Name = c2.Name) ∧
      (js1.ObjectMeta.Name = js2.ObjectMeta.Name → c1.Name = c2.Name) ∧
      (td1.ObjectMeta.Name = td2.ObjectMeta.Name → c1.Name = c2.Name) ∧
      (c1.Name ≠ c2.Name →
        jd1.ObjectMeta.Name ≠ jd2.ObjectMeta.Name ∧
        td1.ObjectMeta.Name ≠ td2.ObjectMeta.Name) := by
  obtain ⟨img, r, b, q, u, d, r', q', hi, hr, hb, hq, hu, hd, hr', hq'⟩ :=
    dereferencedFieldsSet_values c1 h1
  obtain ⟨img', s, b', t, u', d', s', t', hi', hs, hb', ht, hu', hd', hs', ht'⟩ :=
    dereferencedFieldsSet_values c2 h2
  refine ⟨fun N1 N2 => ⟨append_suffix_injective N1 N2 _, append_suffix_injective N1 N2 _,
      jobmanager_name_ne_taskmanager_name N1 N2⟩,
    _, _, _, _, _, _, getDesiredJobManagerDeployment_eq c1 img r b q u hi hr hb hq hu,
    getDesiredJobManagerService_eq c1 r b q u hr hb hq hu,
    getDesiredTaskManagerDeployment_eq c1 img d r' q' hi hd hr' hq',
    getDesiredJobManagerDeployment_eq c2 img' s b' t u' hi' hs hb' ht hu',
    getDesiredJobManagerService_eq c2 s b' t u' hs hb' ht hu',
    getDesiredTaskManagerDeployment_eq c2 img' d' s' t' hi' hd' hs' ht',
    jobmanager_name_ne_taskmanager_name _ _, jobmanager_name_ne_taskmanager_name _ _,
    jobmanager_name_ne_taskmanager_name _ _, append_suffix_injective _ _ _,
    append_suffix_injective _ _ _, append_suffix_injective _ _ _, ?_⟩
  intro hne
  exact ⟨fun heq => hne (append_suffix_injective _ _ _ heq),
    fun heq => hne (append_suffix_injective _ _ _ heq)⟩

/-- Witness of C18 on the clusters `wordcount` and `pagerank`. -/
theorem names_never_collide_witness :
    wordcount.dereferencedFieldsSet = true ∧ pagerank.dereferencedFieldsSet = true ∧
    wordcount.Name ≠ pagerank.Name ∧
    ∃ jd1 td1 jd2 td2,
      getDesiredJobManagerDeployment wordcount = some jd1 ∧
      getDesiredTaskManagerDeployment wordcount = some td1 ∧
      getDesiredJobManagerDeployment pagerank = some jd2 ∧
      getDesiredTaskManagerDeployment pagerank = some td2 ∧
      jd1.ObjectMeta.Name ≠ td1.ObjectMeta.Name ∧
      jd1.ObjectMeta.Name ≠ td2.ObjectMeta.Name ∧
      jd1.ObjectMeta.Name ≠ jd2.ObjectMeta.Name ∧
      td1.ObjectMeta.Name ≠ td2.ObjectMeta.Name := by
  refine ⟨by decide, by decide, by decide, ?_⟩
  obtain ⟨_, jd1, js1, td1, jd2, js2, td2, e1, _, e2, e3, _, e4, n1, n2, _, _, _, _, n3⟩ :=
    names_never_collide wordcount pagerank (by decide) (by decide)
  exact ⟨jd1, td1, jd2, td2, e1, e2, e3, e4, n1, n2, (n3 (by decide)).1, (n3 (by decide)).2⟩

/-- C19, role independence: take a cluster whose dereferenced fields are all
set and any second cluster that agrees with it on API version, kind,
namespace, name and UID. If
they also agree on the image URI and the JobManager spec, they have the same
JobManager deployment and the same JobManager service, however their
TaskManager specs differ. If they also agree on the image URI and the
TaskManager spec, they have the same TaskManager deployment, however their
JobManager specs differ. If they agree on the JobManager ports, they have the
same JobManager service, whatever their image URIs and JobManager replica
counts. -/
theorem role_independence (c1 c2 : FlinkSessionCluster)
    (h1 : c1.dereferencedFieldsSet = true)
    (hA : c1.TypeMeta.APIVersion = c2.TypeMeta.APIVersion)
    (hK : c1.TypeMeta.Kind = c2.TypeMeta.Kind)
    (hns : c1.ObjectMeta.Namespace = c2.ObjectMeta.Namespace)
    (hn : c1.ObjectMeta.Name = c2.ObjectMeta.Name)
    (hu : c1.ObjectMeta.UID = c2.ObjectMeta.UID) :
    (c1.Spec.ImageSpec.URI = c2.Spec.ImageSpec.URI →
      c1.Spec.JobManagerSpec = c2.Spec.JobManagerSpec →
      ∃ jd js,
        getDesiredJobManagerDeployment c1 = some jd ∧
        getDesiredJobManagerDeployment c2 = some jd ∧
        getDesiredJobManagerService c1 = some js ∧
        getDesiredJobManagerService c2 = some js) ∧
    (c1.Spec.ImageSpec.URI = c2.Spec.ImageSpec.URI →
      c1.Spec.TaskManagerSpec = c2.Spec.TaskManagerSpec →
      ∃ td,
        getDesiredTaskManagerDeployment c1 = some td ∧
        getDesiredTaskManagerDeployment c2 = some td) ∧
    (c1.Spec.JobManagerSpec.Ports = c2.Spec.JobManagerSpec.Ports →
      ∃ js,
        getDesiredJobManagerService c1 = some js ∧
        getDesiredJobManagerService c2 = some js) := by
  obtain ⟨img, r, b, q, u, d, r', q', hi, hr, hb, hq, hu', hd, hr', hq'⟩ :=
    dereferencedFieldsSet_values c1 h1
  have hjd := getDesiredJobManagerDeployment_eq c1 img r b q u hi hr hb hq hu'
  have hjs := getDesiredJobManagerService_eq c1 r b q u hr hb hq hu'
  have htd := getDesiredTaskManagerDeployment_eq c1 img d r' q' hi hd hr' hq'
  refine ⟨fun hi2 hj => ⟨_, _, hjd, ?_, hjs, ?_⟩, fun hi2 ht => ⟨_, htd, ?_⟩,
    fun hp => ⟨_, hjs, ?_⟩⟩
  · rw [← hjd]
    exact (getDesiredJobManagerDeployment_congr c1 c2 hA hK hns hn hu hi2 hj).symm
  · rw [← hjs]
    exact (getDesiredJobManagerService_congr c1 c2 hA hK hns hn hu (by rw [hj])).symm
  · rw [← htd]
    exact (getDesiredTaskManagerDeployment_congr c1 c2 hA hK hns hn hu hi2 ht).symm
  · rw [← hjs]
    exact (getDesiredJobManagerService_congr c1 c2 hA hK hns hn hu hp).symm

/-- Witness of C19: `wordcount` against the same cluster with another
TaskManager spec, with another JobManager spec, and with another image and
JobManager replica count. -/
theorem role_independence_witness :
    wordcount.Spec.TaskManagerSpec ≠ wordcountMoreWorkers.Spec.TaskManagerSpec ∧
    (∃ jd js,
      getDesiredJobManagerDeployment wordcount = some jd ∧
      getDesiredJobManagerDeployment wordcountMoreWorkers = some jd ∧
      getDesiredJobManagerService wordcount = some js ∧
      getDesiredJobManagerService wordcountMoreWorkers = some js) ∧
    wordcount.Spec.JobManagerSpec ≠ wordcountOtherCoordinator.Spec.JobManagerSpec ∧
    (∃ td,
      getDesiredTaskManagerDeployment wordcount = some td ∧
      getDesiredTaskManagerDeployment wordcountOtherCoordinator = some td) ∧
    wordcount.Spec.ImageSpec.URI ≠ wordcountUpgraded.Spec.ImageSpec.URI ∧
    wordcount.Spec.JobManagerSpec.Replicas ≠ wordcountUpgraded.Spec.JobManagerSpec.Replicas ∧
    (∃ js,
      getDesiredJobManagerService wordcount = some js ∧
      getDesiredJobManagerService wordcountUpgraded = some js) :=
  ⟨by decide,
    (role_independence wordcount wordcountMoreWorkers (by decide)
      rfl rfl rfl rfl rfl).1 rfl rfl,
    by decide,
    (role_independence wordcount wordcountOtherCoordinator (by decide)
      rfl rfl rfl rfl rfl).2.1 rfl rfl,
    by decide, by decide,
    (role_independence wordcount wordcountUpgraded (by decide)
      rfl rfl rfl rfl rfl).2.2 rfl⟩

end FlinkOperator
